import Mathlib

set_option maxRecDepth 4000

namespace Cortex

/-- JSON values as decoded by httpx response.json(). Numbers are modelled as
rationals; rendering of non-integer numbers in pyRepr is approximate (fraction
form rather than decimal), which no theorem below depends on. -/
inductive Json where
  | null
  | bool (b : Bool)
  | num (q : Rat)
  | str (s : String)
  | arr (elems : List Json)
  | obj (fields : List (String × Json))

/-- Python truthiness of a decoded JSON value. -/
def jsonTruthy : Json → Bool
  | .null => false
  | .bool b => b
  | .num q => q != 0
  | .str s => s != ""
  | .arr [] => false
  | .arr (_ :: _) => true
  | .obj [] => false
  | .obj (_ :: _) => true

/-- Python a or b on decoded JSON values. -/
def pyOr (a b : Json) : Json := if jsonTruthy a then a else b

mutual
/-- Python repr of a decoded JSON value (string escaping inside repr omitted;
non-integer numbers rendered as fractions), used only when str() or an
f-string meets a non-string value. -/
def pyRepr : Json → String
  | .null => "None"
  | .bool true => "True"
  | .bool false => "False"
  | .num q => if q.den == 1 then toString q.num else toString q
  | .str s => "\x27" ++ s ++ "\x27"
  | .arr xs => "[" ++ String.intercalate ", " (pyReprList xs) ++ "]"
  | .obj fs => "\x7b" ++ String.intercalate ", " (pyReprFields fs) ++ "\x7d"

def pyReprList : List Json → List String
  | [] => []
  | x :: xs => pyRepr x :: pyReprList xs

def pyReprFields : List (String × Json) → List String
  | [] => []
  | (k, v) :: fs => ("\x27" ++ k ++ "\x27: " ++ pyRepr v) :: pyReprFields fs
end

/-- Python str() as applied by str(...) and f-string interpolation. -/
def pyFormat : Json → String
  | .str s => s
  | .null => "None"
  | .bool b => pyRepr (.bool b)
  | .num q => pyRepr (.num q)
  | .arr xs => pyRepr (.arr xs)
  | .obj fs => pyRepr (.obj fs)

/-- Python str.lower() restricted to ASCII letters, written over the character
list so it reduces definitionally. -/
def strLower (s : String) : String := String.mk (s.data.map Char.toLower)

/-- Python s[:n] (slicing counts code points, as List.take on the character
list does), written over the character list so it reduces definitionally. -/
def strTake (s : String) (n : Nat) : String := String.mk (s.data.take n)

/-- Python substring containment needle in hay for character lists. -/
def containsAux (needle : List Char) : List Char → Bool
  | [] => needle.isEmpty
  | c :: rest => needle.isPrefixOf (c :: rest) || containsAux needle rest

/-- Python needle in hay for strings. -/
def strContains (hay needle : String) : Bool :=
  containsAux needle.data hay.data

/-- Python str.title() restricted to ASCII letters. -/
def pyTitleAux : List Char → Bool → List Char
  | [], _ => []
  | c :: cs, prevCased =>
    if c.isAlpha then
      (if prevCased then c.toLower else c.toUpper) :: pyTitleAux cs true
    else
      c :: pyTitleAux cs false

/-- Python str.title(). -/
def pyTitle (s : String) : String := String.mk (pyTitleAux s.data false)

/-- dict.get(k) with the implicit None default; none means the receiver is not
a dict, so the attribute access raises AttributeError. -/
def dictGet : Json → String → Option Json
  | .obj fs, k => some ((fs.lookup k).getD .null)
  | _, _ => none

/-- dict.get(k, d); none means the receiver is not a dict. -/
def dictGetD : Json → String → Json → Option Json
  | .obj fs, k, d => some ((fs.lookup k).getD d)
  | _, _, _ => none

/-- Python iteration over a value: lists yield elements, strings yield
one-character strings, dicts yield their keys; none means TypeError. -/
def pyIter : Json → Option (List Json)
  | .arr xs => some xs
  | .str s => some (s.data.map (fun c => Json.str (String.mk [c])))
  | .obj fs => some (fs.map (fun p => Json.str p.1))
  | _ => none

/-- Python value[0]; only a nonempty list yields an element usable by a later
.get — every other receiver ends this code path in an exception. -/
def pyIndex0 : Json → Option Json
  | .arr (x :: _) => some x
  | .str s =>
    match s.data with
    | [] => none
    | c :: _ => some (.str (String.mk [c]))
  | _ => none

/-- Equality test of a decoded JSON value against a Python string. -/
def jsonEqStr : Json → String → Bool
  | .str s, t => s == t
  | _, _ => false

/-- Is the value a dict. -/
def isObj : Json → Bool
  | .obj _ => true
  | _ => false

/-- Is the value a list (Python isinstance(x, list)). -/
def isList : Json → Bool
  | .arr _ => true
  | _ => false

/-- An HTTP response as observed through httpx: status code, the parsed JSON
body (none when response.json() raises), and the raw text. -/
structure HttpResponse where
  status : Nat
  jsonBody : Option Json
  text : String

/-- Outcome of a single httpx request: a delivered response, a timeout
(httpx.TimeoutException), a refused connection (httpx.ConnectError), or any
other exception with its message. -/
inductive HttpOutcome where
  | resp (r : HttpResponse)
  | timeout
  | connectError
  | otherError (msg : String)

/-- Errors a functional test can raise: an Exception with a message, an
undecodable JSON body outside any try, or an AttributeError from calling .get
on a non-dict outside any try. -/
inductive TestError where
  | exc (msg : String)
  | jsonDecodeError
  | attrError

/-- The request/response pair a successful functional test returns. -/
structure TestReturn where
  request : Json
  response : Json

/-- The fixed messages list of the chat test request (line 43). -/
def chatMessages : List Json :=
  [.obj [("role", .str "user"), ("content", .str "Hello")]]

/-- The fixed chat test request payload (lines 41-46). -/
def chatRequestFields (modelName : String) : List (String × Json) :=
  [("model", .str modelName),
   ("messages", .arr chatMessages),
   ("max_tokens", .num 50),
   ("temperature", .num 0.7)]

def chatRequestData (modelName : String) : Json := .obj (chatRequestFields modelName)

/-- Line 64: str(err.get("message") or err.get("error") or "").lower(); none
when err is not a dict (the .get raises). -/
def chatErrMsg : Json → Option String
  | .obj fs =>
    some (strLower (pyFormat (pyOr ((fs.lookup "message").getD .null)
      (pyOr ((fs.lookup "error").getD .null) (.str "")))))
  | _ => none

/-- Line 66: does the decoded error body of the initial chat response indicate
a missing chat template. -/
def chatTemplateDetected (resp : HttpResponse) : Bool :=
  match resp.jsonBody with
  | some err =>
    match chatErrMsg err with
    | some msg => strContains msg "chat template"
    | none => false
  | none => false

/-- One line of the synthesized prompt (line 70); none when an operation on
the message raises. -/
def messageLine (m : Json) : Option String :=
  match m with
  | .obj fs =>
    match (fs.lookup "role").getD (.str "user") with
    | .str rs => some (pyTitle rs ++ ": " ++ pyFormat ((fs.lookup "content").getD (.str "")))
    | _ => none
  | _ => none

/-- Lines 69-72: the synthesized plain-text prompt with the trailing
Assistant: cue. -/
def synthPrompt (messages : List Json) : Option String :=
  match messages.mapM messageLine with
  | some lines => some (String.intercalate "\n\n" lines ++ "\n\nAssistant:")
  | none => none

/-- Lines 68-79: the fallback completions request built from the fixed chat
request payload. -/
def compRequestData (modelName : String) : Option Json :=
  match pyIter (((chatRequestFields modelName).lookup "messages").getD (.arr [])) with
  | none => none
  | some msgs =>
    match synthPrompt msgs with
    | none => none
    | some prompt =>
      some (.obj [("model", .str modelName),
        ("prompt", .str prompt),
        ("max_tokens", ((chatRequestFields modelName).lookup "max_tokens").getD (.num 50)),
        ("temperature", ((chatRequestFields modelName).lookup "temperature").getD (.num 0.7))])

/-- Lines 94-108: conversion of a completions response body to chat shape. -/
def normalizeCompletion (modelName : String) (compData : Json) : Option Json :=
  match dictGet compData "id" with
  | none => none
  | some idv =>
  match dictGet compData "created" with
  | none => none
  | some created =>
  match dictGetD compData "model" (.str modelName) with
  | none => none
  | some modelv =>
  match dictGetD compData "choices" (.arr [.obj []]) with
  | none => none
  | some choicesVal =>
  match pyIndex0 choicesVal with
  | none => none
  | some c0 =>
  match dictGetD c0 "text" (.str "") with
  | none => none
  | some content =>
  match pyIndex0 choicesVal with
  | none => none
  | some c0b =>
  match dictGet c0b "finish_reason" with
  | none => none
  | some finish =>
  match dictGet compData "usage" with
  | none => none
  | some usage =>
  some (.obj [("id", idv),
    ("object", .str "chat.completion"),
    ("created", created),
    ("model", modelv),
    ("choices", .arr [.obj [("index", .num 0),
      ("message", .obj [("role", .str "assistant"), ("content", content)]),
      ("finish_reason", finish)]]),
    ("usage", usage)])

/-- The original HTTP error of the chat test (lines 89 and 118). -/
def origChatError (resp : HttpResponse) : TestError :=
  .exc ("Model returned HTTP " ++ toString resp.status ++ ": " ++ strTake resp.text 200)

/-- The try block of lines 62-115: some means the fallback returned a result;
none means the block raised or ended without returning, both of which fall
through to raising the original error. compOutcome is the outcome of the POST
to /v1/completions (none when that call raises). -/
def chatFallback (modelName : String) (resp : HttpResponse)
    (compOutcome : Option HttpResponse) : Option TestReturn :=
  match resp.jsonBody with
  | none => none
  | some err =>
  match chatErrMsg err with
  | none => none
  | some msg =>
  if strContains msg "chat template" then
    match compRequestData modelName with
    | none => none
    | some _creq =>
    match compOutcome with
    | none => none
    | some compResp =>
    if compResp.status ≥ 400 then none
    else
      match compResp.jsonBody with
      | none => none
      | some compData =>
      match normalizeCompletion modelName compData with
      | none => none
      | some respData => some ⟨chatRequestData modelName, respData⟩
  else none

/-- test_chat_model (lines 25-129) as a function of the delivered initial
response and of the outcome of the fallback completions call. -/
def test_chat_model (modelName : String) (resp : HttpResponse)
    (compOutcome : Option HttpResponse) : Except TestError TestReturn :=
  if resp.status ≥ 400 then
    match chatFallback modelName resp compOutcome with
    | some result => .ok result
    | none => .error (origChatError resp)
  else
    match resp.jsonBody with
    | none => .error .jsonDecodeError
    | some d =>
      match d with
      | .obj fs =>
        if jsonTruthy ((fs.lookup "choices").getD .null) then
          .ok ⟨chatRequestData modelName, d⟩
        else .error (.exc "Invalid response: missing \x27choices\x27 field")
      | _ => .error .attrError

/-- The fixed embeddings test request payload (lines 148-151). -/
def embedRequestData (modelName : String) : Json :=
  .obj [("model", .str modelName), ("input", .str "test")]

/-- test_embedding_model (lines 132-179) as a function of the delivered
response. -/
def test_embedding_model (modelName : String) (resp : HttpResponse) :
    Except TestError TestReturn :=
  if resp.status ≥ 400 then
    .error (.exc ("Model returned HTTP " ++ toString resp.status ++ ": " ++ strTake resp.text 200))
  else
    match resp.jsonBody with
    | none => .error .jsonDecodeError
    | some d =>
      match d with
      | .obj fs =>
        let dataVal := (fs.lookup "data").getD .null
        if !jsonTruthy dataVal || !isList dataVal then
          .error (.exc "Invalid response: missing or invalid \x27data\x27 field")
        else
          match dataVal with
          | .arr (first :: _) =>
            match first with
            | .obj ffs =>
              if jsonTruthy ((ffs.lookup "embedding").getD .null) then
                .ok ⟨embedRequestData modelName, d⟩
              else .error (.exc "Invalid response: missing \x27embedding\x27 in data")
            | _ => .error .attrError
          | _ => .error .attrError
      | _ => .error .attrError

/-- The readiness verdict (lines 20-22). -/
structure ReadinessResp where
  status : String
  detail : Option String := none
  deriving DecidableEq

/-- Lines 202-213: base-url selection. resolves models whether
socket.gethostbyname succeeds; its only modelled failure is gaierror, the one
the source handles. hostPort follows the Python truthiness test if host_port. -/
def resolveBaseUrl (containerName : String) (resolves : Bool) (hostPort : Option Int) : String :=
  if resolves then "http://" ++ containerName ++ ":8000"
  else
    match hostPort with
    | some p => if p != 0 then "http://127.0.0.1:" ++ toString p else "http://127.0.0.1:8000"
    | none => "http://127.0.0.1:8000"

/-- Line 237: str(j.get("detail") or j.get("error") or j.get("message") or "");
none when j is not a dict so the .get raises. -/
def phase1Extract : Json → Option String
  | .obj fs =>
    some (pyFormat (pyOr ((fs.lookup "detail").getD .null)
      (pyOr ((fs.lookup "error").getD .null)
      (pyOr ((fs.lookup "message").getD .null) (.str "")))))
  | _ => none

/-- Lines 235-239: the message extracted from a phase-1 503 response, falling
back to the truncated raw text when decoding or extraction raises. -/
def phase1Msg (r : HttpResponse) : String :=
  match r.jsonBody with
  | some j =>
    match phase1Extract j with
    | some m => m
    | none => strTake r.text 200
  | none => strTake r.text 200

/-- Phase 1 (lines 223-253): some is a returned verdict, none falls through to
phase 2 (non-200/503 status, or a non-timeout non-connect exception). -/
def phase1 (o : HttpOutcome) : Option ReadinessResp :=
  match o with
  | .resp r =>
    if r.status == 200 then some ⟨"ready", none⟩
    else if r.status == 503 then
      let msg := phase1Msg r
      if strContains (strLower msg) "loading" || strContains (strLower msg) "initializing" then
        some ⟨"loading", some "model_loading"⟩
      else
        some ⟨"loading", some ("health_503: " ++ strTake msg 100)⟩
    else none
  | .timeout => some ⟨"loading", some "health_timeout"⟩
  | .connectError => some ⟨"loading", some "connection_refused"⟩
  | .otherError _ => none

/-- Lines 283 and 324: (j or empty-dict).get("error", empty-dict).get("message", "");
none when a .get receiver is not a dict (AttributeError). -/
def errorMessagePath (j : Json) : Option Json :=
  match (if jsonTruthy j then j else .obj []) with
  | .obj fs =>
    match (fs.lookup "error").getD (.obj []) with
    | .obj efs => some ((efs.lookup "message").getD (.str ""))
    | _ => none
  | _ => none

/-- Lines 281-285: the phase-2 503 message, falling back to the truncated raw
text when decoding or extraction raises; the result is a Python value, not
necessarily a string. -/
def phase2Msg (r : HttpResponse) : Json :=
  match r.jsonBody with
  | some j =>
    match errorMessagePath j with
    | some m => m
    | none => .str (strTake r.text 200)
  | none => .str (strTake r.text 200)

/-- Lines 322-326: the phase-3 503 message, extracted by the same recipe that
phase 2 uses. -/
def phase3Msg (r : HttpResponse) : Json :=
  match r.jsonBody with
  | some j =>
    match errorMessagePath j with
    | some m => m
    | none => .str (strTake r.text 200)
  | none => .str (strTake r.text 200)

/-- Python needle in value: substring for strings, membership for lists and
dict keys; none is a TypeError on a non-iterable. -/
def pyInContains (needle : String) : Json → Option Bool
  | .str s => some (strContains s needle)
  | .arr xs => some (xs.any (fun x => jsonEqStr x needle))
  | .obj fs => some (fs.any (fun p => p.1 == needle))
  | _ => none

/-- Line 287: "Loading model" in msg or "loading" in msg.lower() with Python
short-circuiting; none when an operation raises. -/
def loadingCond (msg : Json) : Option Bool :=
  match pyInContains "Loading model" msg with
  | none => none
  | some true => some true
  | some false =>
    match msg with
    | .str s => pyInContains "loading" (.str (strLower s))
    | _ => none

/-- The for-loop of lines 269-271: some true means a listed model matched the
served name and phase 2 returned ready; some false means the loop finished
without a match; none means a .get on a listed element raised. -/
def scanModels : List Json → String → Option Bool
  | [], _ => some false
  | .obj fs :: rest, name =>
    if jsonEqStr ((fs.lookup "id").getD .null) name then some true
    else scanModels rest name
  | _ :: _, _ => none

/-- The phase-2 200 branch (lines 264-278): every failure inside the inner try
is swallowed and the branch returns ready. -/
def phase2on200 (r : HttpResponse) (name : String) : ReadinessResp :=
  match r.jsonBody with
  | none => ⟨"ready", none⟩
  | some data =>
    match data with
    | .obj fs =>
      let models := (fs.lookup "data").getD (.arr [])
      match pyIter models with
      | none => ⟨"ready", none⟩
      | some ms =>
        match scanModels ms name with
        | some true => ⟨"ready", none⟩
        | none => ⟨"ready", none⟩
        | some false =>
          if jsonTruthy models then ⟨"ready", none⟩
          else ⟨"loading", some "models_list_empty"⟩
    | _ => ⟨"ready", none⟩

/-- The phase-2 503 branch (lines 280-289): none means an exception escaped to
the phase-2 handler and control falls through to phase 3. -/
def phase2on503 (r : HttpResponse) : Option ReadinessResp :=
  match loadingCond (phase2Msg r) with
  | none => none
  | some true => some ⟨"loading", some "loading_model"⟩
  | some false =>
    match phase2Msg r with
    | .str s => some ⟨"loading", some ("503: " ++ strTake s 100)⟩
    | _ => none

/-- Phase 2 (lines 257-296): some is a returned verdict, none falls through to
phase 3. -/
def phase2 (o : HttpOutcome) (name : String) : Option ReadinessResp :=
  match o with
  | .resp r =>
    if r.status == 200 then some (phase2on200 r name)
    else if r.status == 503 then phase2on503 r
    else none
  | .timeout => some ⟨"loading", some "models_timeout"⟩
  | .connectError => some ⟨"loading", some "connection_refused"⟩
  | .otherError _ => none

/-- An exception escaping to the outer guard of check_model_readiness. -/
inductive PyExc where
  | timeoutExc
  | connectExc
  | other (msg : String)

/-- CPython TypeError text for needle in value on a non-iterable. -/
def notIterableMsg : Json → String
  | .null => "argument of type \x27NoneType\x27 is not iterable"
  | .bool _ => "argument of type \x27bool\x27 is not iterable"
  | .num _ => "argument of type \x27int\x27 is not iterable"
  | _ => "argument of type \x27object\x27 is not iterable"

/-- Python value[:100]: slicing is defined for strings and lists; none is the
TypeError a dict (or other value) raises. -/
def pySlice100 : Json → Option Json
  | .str s => some (.str (strTake s 100))
  | .arr xs => some (.arr (xs.take 100))
  | _ => none

/-- Phase 3 (lines 300-332): the minimal chat-completion probe runs outside
any phase-local try, so its failures surface as exceptions to the outer
guard. -/
def phase3 (o : HttpOutcome) : Except PyExc ReadinessResp :=
  match o with
  | .timeout => .error .timeoutExc
  | .connectError => .error .connectExc
  | .otherError e => .error (.other e)
  | .resp r =>
    if r.status == 200 then .ok ⟨"ready", none⟩
    else if r.status == 503 then
      let msg := phase3Msg r
      match pyInContains "Loading model" msg with
      | none => .error (.other (notIterableMsg msg))
      | some true => .ok ⟨"loading", some "loading_model"⟩
      | some false =>
        match pySlice100 msg with
        | some v => .ok ⟨"error", some ("503: " ++ pyFormat v)⟩
        | none => .error (.other "unhashable type: \x27slice\x27")
    else .ok ⟨"error", some ("HTTP " ++ toString r.status)⟩

/-- The network environment one probe invocation observes: whether the
container name resolves, and the outcome of the request of each phase. -/
structure ProbeEnv where
  resolves : Bool
  healthOutcome : HttpOutcome
  modelsOutcome : HttpOutcome
  chatOutcome : HttpOutcome

/-- The outer guard of check_model_readiness (lines 334-340) as a function of
the escaped exception. -/
def outerGuard : PyExc → ReadinessResp
  | .timeoutExc => ⟨"loading", some "request_timeout"⟩
  | .connectExc => ⟨"loading", some "connection_refused"⟩
  | .other m => ⟨"error", some (strTake m 200)⟩

/-- The body of the outer try of check_model_readiness (lines 215-332). -/
def probeBody (name : String) (env : ProbeEnv) : Except PyExc ReadinessResp :=
  match phase1 env.healthOutcome with
  | some r => .ok r
  | none =>
    match phase2 env.modelsOutcome name with
    | some r => .ok r
    | none => phase3 env.chatOutcome

/-- check_model_readiness (lines 182-340) as a function of the observed
network environment; the outer guard (lines 334-340) maps escaping exceptions
to verdicts. -/
def check_model_readiness (containerName name : String) (hostPort : Option Int)
    (env : ProbeEnv) : ReadinessResp :=
  let _baseUrl := resolveBaseUrl containerName env.resolves hostPort
  match probeBody name env with
  | .ok r => r
  | .error .timeoutExc => ⟨"loading", some "request_timeout"⟩
  | .error .connectExc => ⟨"loading", some "connection_refused"⟩
  | .error (.other e) => ⟨"error", some (strTake e 200)⟩

/-- Modelled from the spec (section 9, design notes): the single normalizing
extraction routine the spec describes, trying detail, error-as-string,
error.message, then message, returning the first match or the empty string.
Stated for comparison with the per-site extraction functions above. -/
def specExtract (j : Json) : String :=
  match j with
  | .obj fs =>
    match fs.lookup "detail" with
    | some (.str s) => s
    | _ =>
      match fs.lookup "error" with
      | some (.str s) => s
      | some (.obj efs) =>
        (match efs.lookup "message" with
        | some (.str s) => s
        | _ => specMessageKey fs)
      | _ => specMessageKey fs
  | _ => ""
where
  specMessageKey (fs : List (String × Json)) : String :=
    match fs.lookup "message" with
    | some (.str s) => s
    | _ => ""

/-- The message content of the single choice in a chat-shaped response
body. -/
def chatContent (respData : Json) : Option Json :=
  match dictGet respData "choices" with
  | none => none
  | some choices =>
  match pyIndex0 choices with
  | none => none
  | some c0 =>
  match dictGet c0 "message" with
  | none => none
  | some m => dictGet m "content"

/-- The completion output text as the source reads it:
comp_data.get("choices", [dict()])[0].get("text", "") (line 103). -/
def completionText (compData : Json) : Option Json :=
  match dictGetD compData "choices" (.arr [.obj []]) with
  | none => none
  | some choicesVal =>
  match pyIndex0 choicesVal with
  | none => none
  | some c0 => dictGetD c0 "text" (.str "")

/-- Does a listed model entry carry the served model name as its id. -/
def hasId (m : Json) (name : String) : Bool :=
  match m with
  | .obj fs => jsonEqStr ((fs.lookup "id").getD .null) name
  | _ => false

/-- The shape invariant every prober verdict satisfies: a known status, and a
detail exactly when the status is not ready. -/
abbrev GoodResp (r : ReadinessResp) : Prop :=
  (r.status = "ready" ∨ r.status = "loading" ∨ r.status = "error")
    ∧ (r.detail = none ↔ r.status = "ready")

/-- Fixture: a 400 chat response whose body names a missing chat template. -/
def c1resp : HttpResponse :=
  ⟨400, some (.obj [("message", .str "This model does not have a chat template")]),
   "chat template missing"⟩

/-- Fixture: a successful fallback completions response. -/
def c1cr : HttpResponse :=
  ⟨200, some (.obj [("choices", .arr [.obj [("text", .str "Hi there")]])]), "ok"⟩

/-- Fixture: the decoded body of c1cr. -/
def c1cd : Json := .obj [("choices", .arr [.obj [("text", .str "Hi there")]])]

/-- Fixture: the chat-shaped response the fallback synthesizes from c1cd. -/
def c1rd : Json := .obj [("id", .null), ("object", .str "chat.completion"), ("created", .null),
  ("model", .str "m"),
  ("choices", .arr [.obj [("index", .num 0),
    ("message", .obj [("role", .str "assistant"), ("content", .str "Hi there")]),
    ("finish_reason", .null)]]),
  ("usage", .null)]

/-- Fixture: a 503 health response whose detail names loading. -/
def c2health : HttpResponse :=
  ⟨503, some (.obj [("detail", .str "Loading model checkpoint shards")]), "x"⟩

/-- Fixture: an environment whose health probe answers c2health. -/
def c2env : ProbeEnv := ⟨true, .resp c2health, .otherError "m2", .otherError "c2"⟩

/-- Fixture: an environment where every phase raises an unclassified error. -/
def c3env : ProbeEnv := ⟨false, .otherError "h", .otherError "mo", .otherError "boom"⟩

/-- Fixture: a 200 model listing carrying the served model. -/
def c4models : HttpResponse :=
  ⟨200, some (.obj [("data", .arr [.obj [("id", .str "mymodel")]])]), ""⟩

/-- Fixture: an environment reaching phase 2 with c4models. -/
def c4env : ProbeEnv := ⟨true, .otherError "h", .resp c4models, .otherError "c"⟩

/-- Fixture: a phase-3 503 whose error.message names loading. -/
def c5chat : HttpResponse :=
  ⟨503, some (.obj [("error", .obj [("message", .str "Loading model weights")])]), ""⟩

/-- Fixture: an environment reaching phase 3 with c5chat. -/
def c5env : ProbeEnv := ⟨true, .otherError "h", .otherError "mo", .resp c5chat⟩

/-- Fixture: a JSON error body keyed by detail only, on which the extraction
sites disagree. -/
def c6body : Json := .obj [("detail", .str "boom")]

/-- Fixture: a 200 chat response without choices. -/
def c8chat : HttpResponse := ⟨200, some (.obj [("foo", .str "bar")]), "ok"⟩

/-- Fixture: a 200 embeddings response whose first data element lacks an
embedding. -/
def c8embed : HttpResponse :=
  ⟨200, some (.obj [("data", .arr [.obj [("object", .str "embedding")]])]), "ok"⟩

/-- Fixture: an environment whose health probe reports 200. -/
def c9env : ProbeEnv := ⟨true, .resp ⟨200, none, ""⟩, .timeout, .timeout⟩

/-- Fixture: a 200 model listing whose body is not decodable JSON. -/
def c10env : ProbeEnv := ⟨true, .otherError "h", .resp ⟨200, none, "not json"⟩, .timeout⟩

theorem compRequestData_eq (modelName : String) :
    compRequestData modelName = some (.obj
      [("model", .str modelName),
       ("prompt", .str "User: Hello\n\nAssistant:"),
       ("max_tokens", .num 50),
       ("temperature", .num 0.7)]) := rfl

theorem detected_inv (resp : HttpResponse) (h : chatTemplateDetected resp = true) :
    ∃ err msg, resp.jsonBody = some err ∧ chatErrMsg err = some msg ∧
      strContains msg "chat template" = true := by
  unfold chatTemplateDetected at h
  rcases hj : resp.jsonBody with _ | err
  · rw [hj] at h; exact Bool.noConfusion h
  rw [hj] at h
  dsimp only at h
  rcases hm : chatErrMsg err with _ | msg
  · rw [hm] at h; exact Bool.noConfusion h
  rw [hm] at h
  dsimp only at h
  exact ⟨err, msg, rfl, hm, h⟩

theorem chatFallback_success (modelName : String) (resp cr : HttpResponse) (cd rd : Json)
    (hdet : chatTemplateDetected resp = true) (hst : cr.status < 400)
    (hb : cr.jsonBody = some cd) (hn : normalizeCompletion modelName cd = some rd) :
    chatFallback modelName resp (some cr) = some ⟨chatRequestData modelName, rd⟩ := by
  obtain ⟨err, msg, hj, hm, hc⟩ := detected_inv resp hdet
  have hlt : ¬ (cr.status ≥ 400) := Nat.not_le.mpr hst
  unfold chatFallback
  rw [hj]
  dsimp only
  rw [hm]
  dsimp only
  rw [hc, if_pos rfl, compRequestData_eq]
  dsimp only
  rw [if_neg hlt, hb]
  dsimp only
  rw [hn]

theorem chatFallback_not_detected (modelName : String) (resp : HttpResponse)
    (co : Option HttpResponse) (h : chatTemplateDetected resp = false) :
    chatFallback modelName resp co = none := by
  unfold chatTemplateDetected at h
  unfold chatFallback
  rcases hj : resp.jsonBody with _ | err
  · rfl
  rw [hj] at h
  dsimp only at h ⊢
  rcases hm : chatErrMsg err with _ | msg
  · rfl
  rw [hm] at h
  dsimp only at h ⊢
  rw [h]
  simp

theorem chatFallback_comp_fail (modelName : String) (resp cr : HttpResponse)
    (h : cr.status ≥ 400) : chatFallback modelName resp (some cr) = none := by
  unfold chatFallback
  rcases hj : resp.jsonBody with _ | err
  · rfl
  dsimp only
  rcases hm : chatErrMsg err with _ | msg
  · rfl
  dsimp only
  by_cases hc : strContains msg "chat template" = true
  · rw [hc, if_pos rfl, compRequestData_eq]
    dsimp only
    rw [if_pos h]
  · rw [Bool.not_eq_true] at hc
    rw [hc]
    simp

theorem chatFallback_comp_missing (modelName : String) (resp : HttpResponse) :
    chatFallback modelName resp none = none := by
  unfold chatFallback
  rcases hj : resp.jsonBody with _ | err
  · rfl
  dsimp only
  rcases hm : chatErrMsg err with _ | msg
  · rfl
  dsimp only
  by_cases hc : strContains msg "chat template" = true
  · rw [hc, if_pos rfl, compRequestData_eq]
  · rw [Bool.not_eq_true] at hc
    rw [hc]
    simp

theorem test_chat_model_of_fallback_none (modelName : String) (resp : HttpResponse)
    (co : Option HttpResponse) (h4 : resp.status ≥ 400)
    (hf : chatFallback modelName resp co = none) :
    test_chat_model modelName resp co = .error (origChatError resp) := by
  unfold test_chat_model
  rw [if_pos h4, hf]

theorem test_chat_model_of_fallback_some (modelName : String) (resp : HttpResponse)
    (co : Option HttpResponse) (t : TestReturn) (h4 : resp.status ≥ 400)
    (hf : chatFallback modelName resp co = some t) :
    test_chat_model modelName resp co = .ok t := by
  unfold test_chat_model
  rw [if_pos h4, hf]

theorem normalize_content (modelName : String) (cd rd : Json)
    (h : normalizeCompletion modelName cd = some rd) :
    chatContent rd = completionText cd := by
  unfold normalizeCompletion at h
  rcases h1 : dictGet cd "id" with _ | idv
  · rw [h1] at h; exact Option.noConfusion h
  rw [h1] at h
  dsimp only at h
  rcases h2 : dictGet cd "created" with _ | created
  · rw [h2] at h; exact Option.noConfusion h
  rw [h2] at h
  dsimp only at h
  rcases h3 : dictGetD cd "model" (.str modelName) with _ | modelv
  · rw [h3] at h; exact Option.noConfusion h
  rw [h3] at h
  dsimp only at h
  rcases h4 : dictGetD cd "choices" (.arr [.obj []]) with _ | choicesVal
  · rw [h4] at h; exact Option.noConfusion h
  rw [h4] at h
  dsimp only at h
  rcases h5 : pyIndex0 choicesVal with _ | c0
  · rw [h5] at h; exact Option.noConfusion h
  rw [h5] at h
  dsimp only at h
  rcases h6 : dictGetD c0 "text" (.str "") with _ | content
  · rw [h6] at h; exact Option.noConfusion h
  rw [h6] at h
  dsimp only at h
  rcases h8 : dictGet c0 "finish_reason" with _ | finish
  · rw [h8] at h; exact Option.noConfusion h
  rw [h8] at h
  dsimp only at h
  rcases h9 : dictGet cd "usage" with _ | usage
  · rw [h9] at h; exact Option.noConfusion h
  rw [h9] at h
  dsimp only at h
  simp only [Option.some.injEq] at h
  subst h
  unfold completionText
  rw [h4]
  dsimp only
  rw [h5]
  dsimp only
  rw [h6]
  rfl

/-- C1: For the chat functional test, on an error-status initial response
whose decoded message indicates an absent chat template, the harness
synthesizes the prompt User: Hello, blank line, Assistant: (each message
rendered as title-cased role, colon, content, joined in order, with the
trailing Assistant: cue), retries as a raw completion request carrying the
same max_tokens 50 and temperature 0.7, and on retry success returns a
chat-shaped response whose single choice carries a message content equal to
the completion output text; if the retry fails or raises, or the original error
was not template-related, the original error (status code plus a 200-character
body excerpt) is raised instead. -/
theorem C1_chat_template_fallback (modelName : String) (resp cr : HttpResponse)
    (cd rd : Json) :
    (compRequestData modelName = some (.obj
        [("model", .str modelName),
         ("prompt", .str "User: Hello\n\nAssistant:"),
         ("max_tokens", .num 50),
         ("temperature", .num 0.7)])
      ∧ (chatRequestFields modelName).lookup "max_tokens" = some (.num 50)
      ∧ (chatRequestFields modelName).lookup "temperature" = some (.num 0.7))
    ∧ (resp.status ≥ 400 → chatTemplateDetected resp = true → cr.status < 400 →
        cr.jsonBody = some cd → normalizeCompletion modelName cd = some rd →
        test_chat_model modelName resp (some cr) = .ok ⟨chatRequestData modelName, rd⟩
          ∧ chatContent rd = completionText cd)
    ∧ (resp.status ≥ 400 → cr.status ≥ 400 →
        test_chat_model modelName resp (some cr) = .error (origChatError resp))
    ∧ (resp.status ≥ 400 →
        test_chat_model modelName resp none = .error (origChatError resp))
    ∧ (resp.status ≥ 400 → chatTemplateDetected resp = false →
        ∀ co, test_chat_model modelName resp co = .error (origChatError resp))
    ∧ origChatError resp = .exc ("Model returned HTTP " ++ toString resp.status
        ++ ": " ++ strTake resp.text 200) := by
  refine ⟨⟨rfl, rfl, rfl⟩, ?_, ?_, ?_, ?_, rfl⟩
  · intro h4 hdet hst hb hn
    exact ⟨test_chat_model_of_fallback_some _ _ _ _ h4
      (chatFallback_success modelName resp cr cd rd hdet hst hb hn),
      normalize_content modelName cd rd hn⟩
  · intro h4 hcf
    exact test_chat_model_of_fallback_none _ _ _ h4 (chatFallback_comp_fail _ _ _ hcf)
  · intro h4
    exact test_chat_model_of_fallback_none _ _ _ h4 (chatFallback_comp_missing _ _)
  · intro h4 hnd co
    exact test_chat_model_of_fallback_none _ _ _ h4 (chatFallback_not_detected _ _ _ hnd)

/-- Witness for C1 at a concrete 400 chat-template error with a successful
fallback completion answering Hi there. -/
theorem C1_chat_template_fallback_witness :
    c1resp.status ≥ 400 ∧ chatTemplateDetected c1resp = true ∧ c1cr.status < 400
      ∧ c1cr.jsonBody = some c1cd ∧ normalizeCompletion "m" c1cd = some c1rd
      ∧ test_chat_model "m" c1resp (some c1cr) = .ok ⟨chatRequestData "m", c1rd⟩
      ∧ chatContent c1rd = some (.str "Hi there")
      ∧ completionText c1cd = some (.str "Hi there") := by
  refine ⟨by decide, by decide, by decide, rfl, rfl, ?_, rfl, rfl⟩
  exact ((C1_chat_template_fallback "m" c1resp c1cr c1cd c1rd).2.1 (by decide) (by decide)
    (by decide) rfl rfl).1

theorem good_ready : GoodResp ⟨"ready", none⟩ := by
  exact ⟨Or.inl rfl, by simp⟩

theorem good_loading (d : String) : GoodResp ⟨"loading", some d⟩ := by
  refine ⟨Or.inr (Or.inl rfl), ?_, ?_⟩
  · intro hx; exact Option.noConfusion hx
  · intro hx
    have hx2 : ("loading" : String) = "ready" := hx
    exact absurd hx2 (by decide)

theorem good_error (d : String) : GoodResp ⟨"error", some d⟩ := by
  refine ⟨Or.inr (Or.inr rfl), ?_, ?_⟩
  · intro hx; exact Option.noConfusion hx
  · intro hx
    have hx2 : ("error" : String) = "ready" := hx
    exact absurd hx2 (by decide)

theorem phase1_good {o : HttpOutcome} {r : ReadinessResp} (h : phase1 o = some r) :
    GoodResp r := by
  unfold phase1 at h
  rcases o with r0 | _ | _ | e <;> dsimp only at h
  · split at h
    · injection h with h; subst h; exact good_ready
    · split at h
      · split at h
        · injection h with h; subst h; exact good_loading _
        · injection h with h; subst h; exact good_loading _
      · exact Option.noConfusion h
  · injection h with h; subst h; exact good_loading _
  · injection h with h; subst h; exact good_loading _
  · exact Option.noConfusion h

theorem phase2on200_good (r : HttpResponse) (name : String) :
    GoodResp (phase2on200 r name) := by
  unfold phase2on200
  rcases r.jsonBody with _ | data
  · exact good_ready
  dsimp only
  rcases data with _ | b | q | s | xs | fs
  · exact good_ready
  · exact good_ready
  · exact good_ready
  · exact good_ready
  · exact good_ready
  dsimp only
  rcases pyIter ((fs.lookup "data").getD (.arr [])) with _ | ms
  · exact good_ready
  dsimp only
  rcases scanModels ms name with _ | b
  · exact good_ready
  rcases b with _ | _
  · dsimp only
    split
    · exact good_ready
    · exact good_loading _
  · exact good_ready

theorem phase2on503_good {r : HttpResponse} {v : ReadinessResp}
    (h : phase2on503 r = some v) : GoodResp v := by
  unfold phase2on503 at h
  split at h
  · exact Option.noConfusion h
  · injection h with h; subst h; exact good_loading _
  · split at h
    · injection h with h; subst h; exact good_loading _
    · exact Option.noConfusion h

theorem phase2_good {o : HttpOutcome} {name : String} {r : ReadinessResp}
    (h : phase2 o name = some r) : GoodResp r := by
  unfold phase2 at h
  rcases o with r0 | _ | _ | e <;> dsimp only at h
  · split at h
    · injection h with h; subst h; exact phase2on200_good r0 name
    · split at h
      · exact phase2on503_good h
      · exact Option.noConfusion h
  · injection h with h; subst h; exact good_loading _
  · injection h with h; subst h; exact good_loading _
  · exact Option.noConfusion h

theorem phase3_good {o : HttpOutcome} {r : ReadinessResp}
    (h : phase3 o = .ok r) : GoodResp r := by
  unfold phase3 at h
  rcases o with r0 | _ | _ | e <;> dsimp only at h
  · split at h
    · injection h with h; subst h; exact good_ready
    · split at h
      · split at h
        · exact Except.noConfusion h
        · injection h with h; subst h; exact good_loading _
        · split at h
          · injection h with h; subst h; exact good_error _
          · exact Except.noConfusion h
      · injection h with h; subst h; exact good_error _
  · exact Except.noConfusion h
  · exact Except.noConfusion h
  · exact Except.noConfusion h

theorem check_good (cn name : String) (hp : Option Int) (env : ProbeEnv) :
    GoodResp (check_model_readiness cn name hp env) := by
  unfold check_model_readiness probeBody
  rcases h1 : phase1 env.healthOutcome with _ | r1
  · dsimp only
    rcases h2 : phase2 env.modelsOutcome name with _ | r2
    · dsimp only
      rcases h3 : phase3 env.chatOutcome with e | r3
      · rcases e with _ | _ | m <;> dsimp only
        · exact good_loading _
        · exact good_loading _
        · exact good_error _
      · dsimp only
        exact phase3_good h3
    · dsimp only
      exact phase2_good h2
  · dsimp only
    exact phase1_good h1

theorem check_eq_phase1 {cn name : String} {hp : Option Int} {env : ProbeEnv}
    {r : ReadinessResp} (h : phase1 env.healthOutcome = some r) :
    check_model_readiness cn name hp env = r := by
  unfold check_model_readiness probeBody
  rw [h]

theorem check_eq_phase2 {cn name : String} {hp : Option Int} {env : ProbeEnv}
    {r : ReadinessResp} (h1 : phase1 env.healthOutcome = none)
    (h2 : phase2 env.modelsOutcome name = some r) :
    check_model_readiness cn name hp env = r := by
  unfold check_model_readiness probeBody
  rw [h1]
  dsimp only
  rw [h2]

theorem check_eq_phase3_ok {cn name : String} {hp : Option Int} {env : ProbeEnv}
    {r : ReadinessResp} (h1 : phase1 env.healthOutcome = none)
    (h2 : phase2 env.modelsOutcome name = none) (h3 : phase3 env.chatOutcome = .ok r) :
    check_model_readiness cn name hp env = r := by
  unfold check_model_readiness probeBody
  rw [h1]
  dsimp only
  rw [h2]
  dsimp only
  rw [h3]

theorem check_eq_phase3_err {cn name : String} {hp : Option Int} {env : ProbeEnv}
    {e : PyExc} (h1 : phase1 env.healthOutcome = none)
    (h2 : phase2 env.modelsOutcome name = none) (h3 : phase3 env.chatOutcome = .error e) :
    check_model_readiness cn name hp env = outerGuard e := by
  unfold check_model_readiness probeBody
  rw [h1]
  dsimp only
  rw [h2]
  dsimp only
  rw [h3]
  cases e <;> rfl

theorem strTake_le (s : String) (n : Nat) : (strTake s n).length ≤ n := by
  unfold strTake
  show (s.data.take n).length ≤ n
  rw [List.length_take]
  exact Nat.min_le_left _ _

theorem phase1_200 {r : HttpResponse} (h : r.status = 200) :
    phase1 (.resp r) = some ⟨"ready", none⟩ := by
  unfold phase1
  dsimp only
  rw [h]
  rfl

theorem phase1_503 {r : HttpResponse} (h : r.status = 503) :
    phase1 (.resp r) =
      (if strContains (strLower (phase1Msg r)) "loading"
          || strContains (strLower (phase1Msg r)) "initializing" then
        some ⟨"loading", some "model_loading"⟩
      else some ⟨"loading", some ("health_503: " ++ strTake (phase1Msg r) 100)⟩) := by
  unfold phase1
  dsimp only
  rw [h]
  rfl

theorem phase2_200 {r : HttpResponse} (name : String) (h : r.status = 200) :
    phase2 (.resp r) name = some (phase2on200 r name) := by
  unfold phase2
  dsimp only
  rw [h]
  rfl

theorem phase3_200 {r : HttpResponse} (h : r.status = 200) :
    phase3 (.resp r) = .ok ⟨"ready", none⟩ := by
  unfold phase3
  dsimp only
  rw [h]
  rfl

theorem phase3_503 {r : HttpResponse} (h : r.status = 503) :
    phase3 (.resp r) =
      (match pyInContains "Loading model" (phase3Msg r) with
       | none => .error (.other (notIterableMsg (phase3Msg r)))
       | some true => .ok ⟨"loading", some "loading_model"⟩
       | some false =>
         match pySlice100 (phase3Msg r) with
         | some v => .ok ⟨"error", some ("503: " ++ pyFormat v)⟩
         | none => .error (.other "unhashable type: \x27slice\x27")) := by
  unfold phase3
  dsimp only
  rw [h]
  rfl

theorem phase3_other {r : HttpResponse} (h200 : r.status ≠ 200) (h503 : r.status ≠ 503) :
    phase3 (.resp r) = .ok ⟨"error", some ("HTTP " ++ toString r.status)⟩ := by
  unfold phase3
  dsimp only
  simp [h200, h503]

/-- C2: phase 1 decides every readiness probe as follows: HTTP 200 yields
ready, short-circuiting regardless of later phases; HTTP 503 whose extracted
message contains a loading or initializing keyword case-insensitively yields
loading with detail model_loading; HTTP 503 otherwise yields loading with a
generic detail carrying a 100-character excerpt of the message; a timeout
yields loading with detail health_timeout; a refused connection yields loading
with detail connection_refused. -/
theorem C2_phase1_decides (cn name : String) (hp : Option Int) (env : ProbeEnv)
    (r : HttpResponse) :
    (env.healthOutcome = .resp r → r.status = 200 →
      check_model_readiness cn name hp env = ⟨"ready", none⟩)
    ∧ (env.healthOutcome = .resp r → r.status = 503 →
        (strContains (strLower (phase1Msg r)) "loading"
          || strContains (strLower (phase1Msg r)) "initializing") = true →
        check_model_readiness cn name hp env = ⟨"loading", some "model_loading"⟩)
    ∧ (env.healthOutcome = .resp r → r.status = 503 →
        (strContains (strLower (phase1Msg r)) "loading"
          || strContains (strLower (phase1Msg r)) "initializing") = false →
        check_model_readiness cn name hp env
          = ⟨"loading", some ("health_503: " ++ strTake (phase1Msg r) 100)⟩)
    ∧ (env.healthOutcome = .timeout →
        check_model_readiness cn name hp env = ⟨"loading", some "health_timeout"⟩)
    ∧ (env.healthOutcome = .connectError →
        check_model_readiness cn name hp env = ⟨"loading", some "connection_refused"⟩) := by
  refine ⟨?_, ?_, ?_, ?_, ?_⟩
  · intro he h200
    exact check_eq_phase1 (by rw [he]; exact phase1_200 h200)
  · intro he h503 hcond
    refine check_eq_phase1 ?_
    rw [he, phase1_503 h503, hcond, if_pos rfl]
  · intro he h503 hcond
    refine check_eq_phase1 ?_
    rw [he, phase1_503 h503, hcond, if_neg (by decide)]
  · intro ht
    exact check_eq_phase1 (by rw [ht]; rfl)
  · intro hc
    exact check_eq_phase1 (by rw [hc]; rfl)

/-- Witness for C2 at a concrete 503 health response whose detail names
loading. -/
theorem C2_phase1_decides_witness :
    c2env.healthOutcome = .resp c2health ∧ c2health.status = 503
      ∧ (strContains (strLower (phase1Msg c2health)) "loading"
          || strContains (strLower (phase1Msg c2health)) "initializing") = true
      ∧ check_model_readiness "c" "m" none c2env = ⟨"loading", some "model_loading"⟩ :=
  ⟨rfl, rfl, by decide,
    (C2_phase1_decides "c" "m" none c2env c2health).2.1 rfl rfl (by decide)⟩

/-- C3: the prober never raises: it is a total function into ReadinessResp
with status always one of ready, loading or error; a timeout or connection
failure escaping all phase-local handling yields loading, never error; any
other unexpected failure yields error with a description truncated to at most
200 characters. -/
theorem C3_never_raises (cn name : String) (hp : Option Int) (env : ProbeEnv) :
    ((check_model_readiness cn name hp env).status = "ready"
      ∨ (check_model_readiness cn name hp env).status = "loading"
      ∨ (check_model_readiness cn name hp env).status = "error")
    ∧ (phase1 env.healthOutcome = none → phase2 env.modelsOutcome name = none →
        env.chatOutcome = .timeout →
        check_model_readiness cn name hp env = ⟨"loading", some "request_timeout"⟩)
    ∧ (phase1 env.healthOutcome = none → phase2 env.modelsOutcome name = none →
        env.chatOutcome = .connectError →
        check_model_readiness cn name hp env = ⟨"loading", some "connection_refused"⟩)
    ∧ (∀ e, phase1 env.healthOutcome = none → phase2 env.modelsOutcome name = none →
        env.chatOutcome = .otherError e →
        check_model_readiness cn name hp env = ⟨"error", some (strTake e 200)⟩
          ∧ (strTake e 200).length ≤ 200) := by
  refine ⟨(check_good cn name hp env).1, ?_, ?_, ?_⟩
  · intro h1 h2 hc
    exact check_eq_phase3_err h1 h2 (by rw [hc]; rfl)
  · intro h1 h2 hc
    exact check_eq_phase3_err h1 h2 (by rw [hc]; rfl)
  · intro e h1 h2 hc
    exact ⟨@check_eq_phase3_err cn name hp env (.other e) h1 h2 (by rw [hc]; rfl),
      strTake_le e 200⟩

/-- Witness for C3 at an environment where every phase raises an unclassified
error. -/
theorem C3_never_raises_witness :
    phase1 c3env.healthOutcome = none ∧ phase2 c3env.modelsOutcome "m" = none
      ∧ c3env.chatOutcome = .otherError "boom"
      ∧ (check_model_readiness "c" "m" none c3env = ⟨"error", some (strTake "boom" 200)⟩
          ∧ (strTake "boom" 200).length ≤ 200) :=
  ⟨rfl, rfl, rfl, (C3_never_raises "c" "m" none c3env).2.2.2 "boom" rfl rfl rfl⟩

/-- C9: invariant on every verdict any code path of the prober produces: if
the status is ready the detail is absent, and if the status is not ready the
detail is populated with a diagnostic string. -/
theorem C9_detail_invariant (cn name : String) (hp : Option Int) (env : ProbeEnv) :
    ((check_model_readiness cn name hp env).status = "ready" →
      (check_model_readiness cn name hp env).detail = none)
    ∧ ((check_model_readiness cn name hp env).status ≠ "ready" →
      ∃ d, (check_model_readiness cn name hp env).detail = some d) := by
  obtain ⟨_, hiff⟩ := check_good cn name hp env
  constructor
  · intro h
    exact hiff.mpr h
  · intro h
    rcases hd : (check_model_readiness cn name hp env).detail with _ | d
    · exact absurd (hiff.mp hd) h
    · exact ⟨d, rfl⟩

/-- Witness for C9 at an environment whose health probe answers 200. -/
theorem C9_detail_invariant_witness :
    (check_model_readiness "c" "m" none c9env).status = "ready"
      ∧ (check_model_readiness "c" "m" none c9env).detail = none :=
  ⟨rfl, (C9_detail_invariant "c" "m" none c9env).1 rfl⟩

theorem phase2on200_nonempty (r : HttpResponse) (name : String)
    (fs : List (String × Json)) (m0 : Json) (rest : List Json)
    (hb : r.jsonBody = some (.obj fs))
    (hd : fs.lookup "data" = some (.arr (m0 :: rest))) :
    phase2on200 r name = ⟨"ready", none⟩ := by
  unfold phase2on200
  rw [hb]
  dsimp only
  rw [hd]
  simp only [Option.getD_some]
  dsimp only [pyIter]
  rcases scanModels (m0 :: rest) name with _ | b
  · rfl
  · rcases b with _ | _
    · rfl
    · rfl

theorem phase2on200_empty (r : HttpResponse) (name : String)
    (fs : List (String × Json)) (hb : r.jsonBody = some (.obj fs))
    (hd : fs.lookup "data" = some (.arr [])) :
    phase2on200 r name = ⟨"loading", some "models_list_empty"⟩ := by
  unfold phase2on200
  rw [hb]
  dsimp only
  rw [hd]
  rfl

theorem phase2on200_nojson (r : HttpResponse) (name : String)
    (hb : r.jsonBody = none) : phase2on200 r name = ⟨"ready", none⟩ := by
  unfold phase2on200
  rw [hb]

theorem phase2on200_nonobj (r : HttpResponse) (name : String) (j : Json)
    (hb : r.jsonBody = some j) (hno : isObj j = false) :
    phase2on200 r name = ⟨"ready", none⟩ := by
  unfold phase2on200
  rw [hb]
  dsimp only
  rcases j with _ | b | q | s | xs | fs
  · rfl
  · rfl
  · rfl
  · rfl
  · rfl
  · exact absurd hno (by simp [isObj])

theorem phase2on200_noiter (r : HttpResponse) (name : String)
    (fs : List (String × Json)) (hb : r.jsonBody = some (.obj fs))
    (hit : pyIter ((fs.lookup "data").getD (.arr [])) = none) :
    phase2on200 r name = ⟨"ready", none⟩ := by
  unfold phase2on200
  rw [hb]
  dsimp only
  rw [hit]

theorem phase2on200_scanraise (r : HttpResponse) (name : String)
    (fs : List (String × Json)) (ms : List Json) (hb : r.jsonBody = some (.obj fs))
    (hit : pyIter ((fs.lookup "data").getD (.arr [])) = some ms)
    (hscan : scanModels ms name = none) :
    phase2on200 r name = ⟨"ready", none⟩ := by
  unfold phase2on200
  rw [hb]
  dsimp only
  rw [hit]
  dsimp only
  rw [hscan]

/-- C4: a probe reaching phase 2 with a 200 model listing: when the served
model identifier appears in the decoded list the verdict is ready; when the
list is empty the verdict is loading with detail models_list_empty; when the
list is nonempty but the identifier is absent the verdict is still ready. -/
theorem C4_phase2_listing (cn name : String) (hp : Option Int) (env : ProbeEnv)
    (r : HttpResponse) (fs : List (String × Json)) (ms : List Json) :
    phase1 env.healthOutcome = none → env.modelsOutcome = .resp r → r.status = 200 →
    r.jsonBody = some (.obj fs) → fs.lookup "data" = some (.arr ms) →
    ((ms.any (fun m => hasId m name) = true →
        check_model_readiness cn name hp env = ⟨"ready", none⟩)
      ∧ (ms = [] →
        check_model_readiness cn name hp env = ⟨"loading", some "models_list_empty"⟩)
      ∧ (ms ≠ [] → ms.any (fun m => hasId m name) = false →
        check_model_readiness cn name hp env = ⟨"ready", none⟩)) := by
  intro h1 hm h200 hb hd
  have hch : ∀ v, phase2on200 r name = v → check_model_readiness cn name hp env = v := by
    intro v hv
    exact check_eq_phase2 h1 (by rw [hm, phase2_200 name h200, hv])
  refine ⟨?_, ?_, ?_⟩
  · intro hany
    rcases ms with _ | ⟨m0, rest⟩
    · exact absurd hany (by simp)
    · exact hch _ (phase2on200_nonempty r name fs m0 rest hb hd)
  · intro hnil
    subst hnil
    exact hch _ (phase2on200_empty r name fs hb hd)
  · intro hne _
    rcases ms with _ | ⟨m0, rest⟩
    · exact absurd rfl hne
    · exact hch _ (phase2on200_nonempty r name fs m0 rest hb hd)

/-- Witness for C4 at a listing carrying the served model. -/
theorem C4_phase2_listing_witness :
    phase1 c4env.healthOutcome = none ∧ c4env.modelsOutcome = .resp c4models
      ∧ c4models.status = 200
      ∧ c4models.jsonBody = some (.obj [("data", .arr [.obj [("id", .str "mymodel")]])])
      ∧ ([("data", .arr [.obj [("id", .str "mymodel")]])] : List (String × Json)).lookup "data"
          = some (.arr [.obj [("id", .str "mymodel")]])
      ∧ ([Json.obj [("id", .str "mymodel")]]).any (fun m => hasId m "mymodel") = true
      ∧ check_model_readiness "c" "mymodel" none c4env = ⟨"ready", none⟩ := by
  refine ⟨rfl, rfl, rfl, rfl, rfl, by decide, ?_⟩
  exact (C4_phase2_listing "c" "mymodel" none c4env c4models
    [("data", .arr [.obj [("id", .str "mymodel")]])] [.obj [("id", .str "mymodel")]]
    rfl rfl rfl rfl rfl).1 (by decide)

/-- C10: in phase 2, a 200 model-listing response whose body cannot be decoded
as JSON, or whose decoded body is not a dict, or whose data field cannot be
iterated, or whose listed element cannot be read, is classified ready. -/
theorem C10_undecodable_listing_ready (cn name : String) (hp : Option Int)
    (env : ProbeEnv) (r : HttpResponse) (j : Json) :
    phase1 env.healthOutcome = none → env.modelsOutcome = .resp r → r.status = 200 →
    ((r.jsonBody = none → check_model_readiness cn name hp env = ⟨"ready", none⟩)
      ∧ (r.jsonBody = some j → isObj j = false →
          check_model_readiness cn name hp env = ⟨"ready", none⟩)
      ∧ (∀ fs, r.jsonBody = some (.obj fs) →
          pyIter ((fs.lookup "data").getD (.arr [])) = none →
          check_model_readiness cn name hp env = ⟨"ready", none⟩)
      ∧ (∀ fs ms, r.jsonBody = some (.obj fs) →
          pyIter ((fs.lookup "data").getD (.arr [])) = some ms →
          scanModels ms name = none →
          check_model_readiness cn name hp env = ⟨"ready", none⟩)) := by
  intro h1 hm h200
  have hch : ∀ v, phase2on200 r name = v → check_model_readiness cn name hp env = v := by
    intro v hv
    exact check_eq_phase2 h1 (by rw [hm, phase2_200 name h200, hv])
  refine ⟨?_, ?_, ?_, ?_⟩
  · intro hb
    exact hch _ (phase2on200_nojson r name hb)
  · intro hb hno
    exact hch _ (phase2on200_nonobj r name j hb hno)
  · intro fs hb hit
    exact hch _ (phase2on200_noiter r name fs hb hit)
  · intro fs ms hb hit hscan
    exact hch _ (phase2on200_scanraise r name fs ms hb hit hscan)

/-- Witness for C10 at a 200 listing whose body is not decodable JSON. -/
theorem C10_undecodable_listing_ready_witness :
    phase1 c10env.healthOutcome = none
      ∧ c10env.modelsOutcome = .resp ⟨200, none, "not json"⟩
      ∧ (⟨200, none, "not json"⟩ : HttpResponse).status = 200
      ∧ (⟨200, none, "not json"⟩ : HttpResponse).jsonBody = none
      ∧ check_model_readiness "c" "m" none c10env = ⟨"ready", none⟩ := by
  refine ⟨rfl, rfl, rfl, rfl, ?_⟩
  exact (C10_undecodable_listing_ready "c" "m" none c10env ⟨200, none, "not json"⟩
    .null rfl rfl rfl).1 rfl

/-- C5: a probe reaching phase 3, the minimal generation probe: HTTP 200
yields ready; HTTP 503 whose extracted message contains the loading indicator
(the substring Loading model, as the source tests it) yields loading with
detail loading_model; HTTP 503 otherwise yields status error, and when the
extracted message is a string the detail carries it truncated to 100
characters; any other status yields error with a detail carrying the HTTP
status code. -/
theorem C5_phase3_decides (cn name : String) (hp : Option Int) (env : ProbeEnv)
    (r : HttpResponse) :
    phase1 env.healthOutcome = none → phase2 env.modelsOutcome name = none →
    env.chatOutcome = .resp r →
    ((r.status = 200 → check_model_readiness cn name hp env = ⟨"ready", none⟩)
      ∧ (r.status = 503 → pyInContains "Loading model" (phase3Msg r) = some true →
          check_model_readiness cn name hp env = ⟨"loading", some "loading_model"⟩)
      ∧ (∀ s, r.status = 503 → phase3Msg r = .str s →
          pyInContains "Loading model" (phase3Msg r) = some false →
          check_model_readiness cn name hp env
            = ⟨"error", some ("503: " ++ strTake s 100)⟩)
      ∧ (r.status = 503 → pyInContains "Loading model" (phase3Msg r) ≠ some true →
          (check_model_readiness cn name hp env).status = "error")
      ∧ (r.status ≠ 200 → r.status ≠ 503 →
          check_model_readiness cn name hp env
            = ⟨"error", some ("HTTP " ++ toString r.status)⟩)) := by
  intro h1 h2 hc
  refine ⟨?_, ?_, ?_, ?_, ?_⟩
  · intro h200
    exact check_eq_phase3_ok h1 h2 (by rw [hc]; exact phase3_200 h200)
  · intro h503 hin
    refine check_eq_phase3_ok h1 h2 ?_
    rw [hc, phase3_503 h503, hin]
  · intro s h503 hmsg hin
    refine check_eq_phase3_ok h1 h2 ?_
    rw [hc, phase3_503 h503, hin]
    dsimp only
    rw [hmsg]
    rfl
  · intro h503 hnin
    rcases hin : pyInContains "Loading model" (phase3Msg r) with _ | b
    · have heq := @check_eq_phase3_err cn name hp env
        (.other (notIterableMsg (phase3Msg r))) h1 h2
        (by rw [hc, phase3_503 h503, hin])
      rw [heq]
      rfl
    · rcases b with _ | _
      · rcases hsl : pySlice100 (phase3Msg r) with _ | v
        · have heq := @check_eq_phase3_err cn name hp env
            (.other "unhashable type: \x27slice\x27") h1 h2
            (by rw [hc, phase3_503 h503, hin]; dsimp only; rw [hsl])
          rw [heq]
          rfl
        · have heq := @check_eq_phase3_ok cn name hp env
            ⟨"error", some ("503: " ++ pyFormat v)⟩ h1 h2
            (by rw [hc, phase3_503 h503, hin]; dsimp only; rw [hsl])
          rw [heq]
      · exact absurd hin hnin
  · intro h200 h503
    exact check_eq_phase3_ok h1 h2 (by rw [hc]; exact phase3_other h200 h503)

/-- Witness for C5 at a 503 generation probe whose error message names
Loading model. -/
theorem C5_phase3_decides_witness :
    phase1 c5env.healthOutcome = none ∧ phase2 c5env.modelsOutcome "m" = none
      ∧ c5env.chatOutcome = .resp c5chat ∧ c5chat.status = 503
      ∧ pyInContains "Loading model" (phase3Msg c5chat) = some true
      ∧ check_model_readiness "c" "m" none c5env = ⟨"loading", some "loading_model"⟩ := by
  refine ⟨rfl, rfl, rfl, rfl, by decide, ?_⟩
  exact ((C5_phase3_decides "c" "m" none c5env c5chat) rfl rfl rfl).2.1 rfl (by decide)

/-- C8: a successful (2xx) response missing the expected fields is a test
failure: a chat response without a truthy choices collection fails with the
missing-choices message, and an embeddings response without a truthy data
list, or whose first data element lacks a truthy embedding, fails with the
corresponding message. -/
theorem C8_shape_validation (modelName : String) (resp : HttpResponse)
    (co : Option HttpResponse) (fs : List (String × Json)) :
    (200 ≤ resp.status → resp.status < 300 → resp.jsonBody = some (.obj fs) →
      jsonTruthy ((fs.lookup "choices").getD .null) = false →
      test_chat_model modelName resp co
        = .error (.exc "Invalid response: missing \x27choices\x27 field"))
    ∧ (200 ≤ resp.status → resp.status < 300 → resp.jsonBody = some (.obj fs) →
        (jsonTruthy ((fs.lookup "data").getD .null) = false
          ∨ isList ((fs.lookup "data").getD .null) = false) →
        test_embedding_model modelName resp
          = .error (.exc "Invalid response: missing or invalid \x27data\x27 field"))
    ∧ (∀ first rest ffs, 200 ≤ resp.status → resp.status < 300 →
        resp.jsonBody = some (.obj fs) →
        (fs.lookup "data").getD .null = .arr (first :: rest) → first = .obj ffs →
        jsonTruthy ((ffs.lookup "embedding").getD .null) = false →
        test_embedding_model modelName resp
          = .error (.exc "Invalid response: missing \x27embedding\x27 in data")) := by
  refine ⟨?_, ?_, ?_⟩
  · intro hlo hhi hb hch
    have hlt : ¬ (resp.status ≥ 400) := by omega
    unfold test_chat_model
    rw [if_neg hlt, hb]
    dsimp only
    rw [hch]
    rfl
  · intro hlo hhi hb hor
    have hlt : ¬ (resp.status ≥ 400) := by omega
    unfold test_embedding_model
    rw [if_neg hlt, hb]
    dsimp only
    rcases hor with h | h
    · rw [if_pos (by rw [h]; rfl)]
    · rw [if_pos (by rw [h]; simp)]
  · intro first rest ffs hlo hhi hb hd hfirst hemb
    have hlt : ¬ (resp.status ≥ 400) := by omega
    subst hfirst
    unfold test_embedding_model
    rw [if_neg hlt, hb]
    dsimp only
    rw [hd]
    rw [if_neg (by simp [jsonTruthy, isList])]
    dsimp only
    rw [hemb]
    rfl

/-- Witness for C8 at a 200 chat response lacking choices and a 200 embeddings
response whose first data element lacks an embedding. -/
theorem C8_shape_validation_witness :
    200 ≤ c8chat.status ∧ c8chat.status < 300
      ∧ c8chat.jsonBody = some (.obj [("foo", .str "bar")])
      ∧ jsonTruthy ((([("foo", Json.str "bar")]).lookup "choices").getD .null) = false
      ∧ test_chat_model "m" c8chat none
          = .error (.exc "Invalid response: missing \x27choices\x27 field")
      ∧ c8embed.jsonBody = some (.obj [("data", .arr [.obj [("object", .str "embedding")]])])
      ∧ test_embedding_model "m" c8embed
          = .error (.exc "Invalid response: missing \x27embedding\x27 in data") := by
  refine ⟨by decide, by decide, rfl, by decide, ?_, rfl, ?_⟩
  · exact (C8_shape_validation "m" c8chat none [("foo", .str "bar")]).1
      (by decide) (by decide) rfl (by decide)
  · exact (C8_shape_validation "m" c8embed none
      [("data", .arr [.obj [("object", .str "embedding")]])]).2.2
      (.obj [("object", .str "embedding")]) [] [("object", .str "embedding")]
      (by decide) (by decide) rfl rfl rfl (by decide)

/-- C6 counterexample: the extraction sites do not compute one and the same
function of the error body: on the body keyed by detail alone, the normalizing
routine of the spec and the phase-1 site yield boom while the chat-test site
yields the empty string. -/
theorem C6_single_extractor_counterexample :
    chatErrMsg c6body ≠ phase1Extract c6body
      ∧ chatErrMsg c6body = some ""
      ∧ phase1Extract c6body = some "boom"
      ∧ phase1Extract c6body = some (specExtract c6body)
      ∧ chatErrMsg c6body ≠ some (specExtract c6body) := by
  exact ⟨by decide, rfl, rfl, by decide, by decide⟩

/-- C6 amended: the extraction sites differ per site: the chat test lowercases
message-then-error, phase 1 reads detail-then-error-then-message, and phases 2
and 3 share one and the same error.message recipe; only phases 2 and 3 compute
the same function of the response. -/
theorem C6_single_extractor_amended :
    (∀ r : HttpResponse, phase2Msg r = phase3Msg r)
    ∧ chatErrMsg c6body ≠ some (specExtract c6body)
    ∧ phase1Extract c6body = some (specExtract c6body) := by
  exact ⟨fun r => rfl, by decide, by decide⟩

/-- Witness for the amended C6 at a concrete 503 response carrying the
detail-keyed body: phases 2 and 3 extract the same message from it. -/
theorem C6_single_extractor_amended_witness :
    phase2Msg ⟨503, some c6body, "raw"⟩ = phase3Msg ⟨503, some c6body, "raw"⟩ :=
  C6_single_extractor_amended.1 ⟨503, some c6body, "raw"⟩

/-- C7 counterexample: with an unresolvable name and a supplied fallback port
of 0, the code does not use the supplied port: Python truthiness treats port 0
as absent and the default port is used instead. -/
theorem C7_address_precedence_counterexample :
    resolveBaseUrl "c" false (some 0) = "http://127.0.0.1:8000"
      ∧ resolveBaseUrl "c" false (some 0) ≠ "http://127.0.0.1:0" := by
  exact ⟨rfl, by decide⟩

/-- C7 amended: address resolution always produces a base address, with the
precedence: resolved name on the default port 8000; else loopback with the
fallback port when a nonzero one was supplied; else loopback on the default
port, a supplied port of zero being treated as absent. -/
theorem C7_address_precedence_amended (cn : String) (res : Bool) (hp : Option Int) :
    (res = true → resolveBaseUrl cn res hp = "http://" ++ cn ++ ":8000")
    ∧ (∀ p, res = false → hp = some p → p ≠ 0 →
        resolveBaseUrl cn res hp = "http://127.0.0.1:" ++ toString p)
    ∧ (res = false → hp = none → resolveBaseUrl cn res hp = "http://127.0.0.1:8000")
    ∧ (res = false → hp = some 0 → resolveBaseUrl cn res hp = "http://127.0.0.1:8000") := by
  refine ⟨?_, ?_, ?_, ?_⟩
  · intro h
    subst h
    rfl
  · intro p h hsome hpn
    subst h
    subst hsome
    show (if (p != 0 : Bool) then "http://127.0.0.1:" ++ toString p
      else "http://127.0.0.1:8000") = "http://127.0.0.1:" ++ toString p
    rw [if_pos (by simpa using hpn)]
  · intro h hsome
    subst h
    subst hsome
    rfl
  · intro h hsome
    subst h
    subst hsome
    rfl

/-- Witness for the amended C7 at an unresolvable name with fallback port
9001. -/
theorem C7_address_precedence_amended_witness :
    (false : Bool) = false ∧ (some (9001 : Int)) = some 9001 ∧ (9001 : Int) ≠ 0
      ∧ resolveBaseUrl "c" false (some 9001) = "http://127.0.0.1:" ++ toString (9001 : Int) := by
  refine ⟨rfl, rfl, by decide, ?_⟩
  exact (C7_address_precedence_amended "c" false (some 9001)).2.1 9001 rfl rfl (by decide)

end Cortex
